import Mathlib

/-
Verification of the candy-lfs CLI credential/session subsystem.

Shallow embedding of:
  - src/candy_lfs/api.py   (error normalization in APIClient._request,
                            device-flow polling in wait_for_github_auth)
  - src/candy_lfs/config.py (Config: YAML-backed session directory plus
                            git-credential-helper secret store)
  - src/candy_lfs/cli.py   (get_client, login, logout command bodies)

JSON values are modelled by the inductive JVal; Python dicts parsed from
JSON bodies by association lists with first-key-wins lookup.  Stateful
code is modelled by explicit state passing over the record CState, which
combines the persisted YAML configuration with the (external) git
credential store, viewed as a map from (host, path, username) keys to
secret strings.  An effect trace records the externally visible calls
(credential-helper approve/reject, server-side token revocation) that an
operation performs.
-/

namespace CandyLfs

/-- A JSON value as the Python code sees it after `response.json()`.
Objects are carried separately as association lists (`JDict`) since the
code only ever treats the top-level body as a dict; nested values that
can appear inside a `details` array are scalars or arrays. -/
inductive JVal where
  | jstr (s : String)
  | jnum (n : Int)
  | jbool (b : Bool)
  | jnull
  | jarr (xs : List JVal)

mutual

/-- Structural equality on JSON values (the model of Python `==` between
parsed JSON values as used by the poll loop). -/
def JVal.beq : JVal → JVal → Bool
  | .jstr a, .jstr b => a == b
  | .jnum a, .jnum b => a == b
  | .jbool a, .jbool b => a == b
  | .jnull, .jnull => true
  | .jarr a, .jarr b => JVal.beqList a b
  | _, _ => false

/-- Pointwise equality on lists of JSON values. -/
def JVal.beqList : List JVal → List JVal → Bool
  | [], [] => true
  | a :: as, b :: bs => JVal.beq a b && JVal.beqList as bs
  | _, _ => false

end

instance : BEq JVal := ⟨JVal.beq⟩

/-- A parsed JSON object: ordered key/value pairs, first key wins on
lookup (JSON objects parsed by Python have unique keys). -/
abbrev JDict := List (String × JVal)

/-- Model of Python dict lookup `d[k]` / presence test. -/
def dictGet : JDict → String → Option JVal
  | [], _ => none
  | (k, v) :: rest, key => if k = key then some v else dictGet rest key

/-- Model of Python `d.get(k, default)`. -/
def pyGet (d : JDict) (k : String) (dflt : JVal) : JVal :=
  (dictGet d k).getD dflt

/-- Model of Python `k in d`. -/
def dictHas (d : JDict) (k : String) : Bool :=
  (dictGet d k).isSome

/-- The apostrophe character used by Python repr of strings. -/
def quoteChar : String := String.singleton (Char.ofNat 39)

mutual

/-- Model of Python `repr` on JSON values (used for elements inside a
stringified list); string escaping is not modelled beyond quoting. -/
def pyRepr : JVal → String
  | .jstr s => quoteChar ++ s ++ quoteChar
  | .jnum n => toString n
  | .jbool b => if b then "True" else "False"
  | .jnull => "None"
  | .jarr xs => "[" ++ ", ".intercalate (pyReprList xs) ++ "]"

/-- `repr` mapped over a list of JSON values. -/
def pyReprList : List JVal → List String
  | [] => []
  | x :: xs => pyRepr x :: pyReprList xs

end

/-- Model of Python `str` on JSON values: identity on strings, `repr`
otherwise. -/
def pyStr : JVal → String
  | .jstr s => s
  | v => pyRepr v

/-- Model of Python truthiness of a JSON value. -/
def pyTruthy : JVal → Bool
  | .jstr s => s ≠ ""
  | .jnum n => n ≠ 0
  | .jbool b => b
  | .jnull => false
  | .jarr xs => ¬ xs.isEmpty

/-- Model of Python iteration over a JSON value, as used by
`", ".join(str(d) for d in details if d)`: arrays yield their elements,
strings yield their characters as one-character strings, every other
value raises `TypeError` (returned as `none`; the surrounding
`except Exception` then falls back to the raw response text). -/
def iterItems : JVal → Option (List JVal)
  | .jarr xs => some xs
  | .jstr s => some (s.toList.map fun c => JVal.jstr (String.singleton c))
  | _ => none

/-- `", ".join(str(d) for d in items if d)`. -/
def joinDetails (items : List JVal) : String :=
  ", ".intercalate ((items.filter pyTruthy).map pyStr)

/-- The message computed by `APIClient._request` (api.py lines 38-56)
for a failed response.  `body` is `some d` when `response.json()`
returned the object `d`, and `none` when the body did not parse as
JSON (`response.json()` raised; the `except Exception` branch sets
`message = response.text`).  The result is a JSON value because the
Python code assigns raw dict values to `message`; a plain string is
embedded as `JVal.jstr`. -/
def error_message (body : Option JDict) (rawText : String) : JVal :=
  match body with
  | none => .jstr rawText
  | some d =>
    if dictHas d "error" && dictHas d "error_description" then
      -- OAuth format: \x7berror, error_description\x7d
      pyGet d "error_description" (pyGet d "error" (.jstr "unknown_error"))
    else if dictHas d "error" then
      pyGet d "error" (.jstr "unknown_error")
    else
      -- Management API format: \x7berror, details, request_id\x7d
      let message := pyGet d "error" (pyGet d "message" (.jstr rawText))
      if dictHas d "details" && pyTruthy (pyGet d "details" .jnull) then
        match iterItems (pyGet d "details" .jnull) with
        | none => .jstr rawText   -- TypeError inside the join, caught by except
        | some items =>
          let ds := joinDetails items
          if ds = "" then message else .jstr (pyStr message ++ ": " ++ ds)
      else message

/-- The normalized error raised as `APIError`: status code, message and
the parsed body (when one was obtained) as `details`. -/
structure APIErr where
  status_code : Nat
  message : JVal
  details : Option JDict

/-- Outcome of one `_request` call, after the status dispatch. -/
inductive RequestOutcome where
  | noContent
  | ok (body : JDict)
  | failure (e : APIErr)

/-- Model of the response handling in `APIClient._request` (api.py lines
36-57): 204 is a success with no content; any status of 400 or more
raises `APIError(status, message, error_data-or-None)`; otherwise the
parsed JSON body is returned.  A 2xx body that fails to parse raises a
`requests` exception, rewrapped as a network-level `APIError`; the
exact exception text depends on the JSON library, so the model carries
a fixed marker message for that branch (no claim depends on it). -/
def handle_response (status : Nat) (body : Option JDict) (rawText : String) :
    RequestOutcome :=
  if status = 204 then .noContent
  else if 400 ≤ status then .failure ⟨status, error_message body rawText, body⟩
  else
    match body with
    | some d => .ok d
    | none => .failure ⟨0, .jstr "Network error: invalid JSON body", none⟩

/-- `e.details.get("error", "")` as computed in `wait_for_github_auth`
(api.py line 74); `APIError.__init__` replaces an absent details dict by
`\x7b\x7d`. -/
def detail_error (e : APIErr) : JVal :=
  match e.details with
  | none => .jstr ""
  | some d => pyGet d "error" (.jstr "")

/-- One scripted provider answer to a poll request. -/
inductive PollStep where
  | success (payload : JDict)
  | failure (e : APIErr)

/-- Terminal outcome of the poll loop on a finite script. -/
inductive AuthOutcome where
  | authorized (payload : JDict)
  | failed (e : APIErr)
  | exhausted

/-- Model of `APIClient.wait_for_github_auth` (api.py lines 67-82) run
against a finite script of provider answers.  Returns the list of sleep
durations performed (in order) and the terminal outcome; `exhausted`
marks a script that ends while the loop would still be polling.
On a 400 whose `details.error` is `authorization_pending` the loop
sleeps the current interval and retries; on `slow_down` it first adds 5
to the interval and then sleeps the increased interval; any other error
is re-raised. -/
def wait_for_github_auth (interval : Nat) (script : List PollStep) :
    List Nat × AuthOutcome :=
  match script with
  | [] => ([], .exhausted)
  | .success p :: _ => ([], .authorized p)
  | .failure e :: rest =>
    if e.status_code == 400 then
      if detail_error e == JVal.jstr "authorization_pending" then
        let r := wait_for_github_auth interval rest
        (interval :: r.1, r.2)
      else if detail_error e == JVal.jstr "slow_down" then
        let r := wait_for_github_auth (interval + 5) rest
        ((interval + 5) :: r.1, r.2)
      else ([], .failed e)
    else ([], .failed e)

/-- A Tenant Record as persisted under the `tenants` key of the YAML
configuration (config.py `add_tenant`). -/
structure TenantRec where
  tenant_id : String
  name : String
  role : String
deriving DecidableEq

/-- A git-credential key: (host, path, username), the three fields the
helper protocol is addressed by (config.py `_git_credential_get` and
friends). -/
abbrev CredKey := String × String × String

/-- Combined state: the persisted YAML configuration (`api_endpoint`,
`lfs_endpoint`, `current_tenant`, `tenants`) together with the external
git credential store, viewed as a map from CredKey to the stored
secret. -/
structure CState where
  api_endpoint : String
  lfs_endpoint : String
  current_tenant : Option String
  tenants : List TenantRec
  secrets : List (CredKey × String)
deriving DecidableEq

/-- netloc and path of `urllib.parse.urlparse`, for the URL shapes the
code feeds it: with a `scheme://` prefix the netloc is the text up to
the next slash and the path is the rest; without one the whole string
is the path. -/
def urlparse_netloc_path (url : String) : String × String :=
  match url.splitOn "://" with
  | [] => ("", "")
  | [_] => ("", url)
  | _ :: rest =>
    let after := "://".intercalate rest
    match after.splitOn "/" with
    | [] => ("", "")
    | h :: t => (h, if t.isEmpty then "" else "/" ++ "/".intercalate t)

/-- Python `s.strip(slash)`: drop leading and trailing slashes. -/
def stripSlashes (s : String) : String :=
  String.mk (((s.toList.dropWhile (· = '/')).reverse.dropWhile (· = '/')).reverse)

/-- `Config._get_git_credential_info` (config.py lines 69-76): host and
path for the git credential entry of a tenant.  With an `lfs_endpoint`
configured they are derived from its URL; otherwise a fixed placeholder
host is used and the path is the tenant id. -/
def get_git_credential_info (st : CState) (tenant_id : String) : String × String :=
  if st.lfs_endpoint ≠ "" then
    let np := urlparse_netloc_path st.lfs_endpoint
    let base_path := stripSlashes np.2
    let path := if base_path ≠ "" then base_path ++ "/" ++ tenant_id else tenant_id
    (np.1, path)
  else ("candy-lfs.local", tenant_id)

/-- The full credential key used for a tenant: host and path from
`_get_git_credential_info`, username = tenant id. -/
def credKeyOf (st : CState) (tenant_id : String) : CredKey :=
  ((get_git_credential_info st tenant_id).1,
   (get_git_credential_info st tenant_id).2, tenant_id)

/-- `git credential fill`: look the key up in the store. -/
def credFill (secrets : List (CredKey × String)) (k : CredKey) : Option String :=
  (secrets.find? fun e => e.1 = k).map (·.2)

/-- `git credential approve`: store a secret under the key, overwriting
any previous entry for the same key. -/
def credApprove (secrets : List (CredKey × String)) (k : CredKey) (v : String) :
    List (CredKey × String) :=
  if secrets.any (fun e => e.1 = k) then
    secrets.map fun e => if e.1 = k then (k, v) else e
  else
    secrets ++ [(k, v)]

/-- `git credential reject`: erase any entry for the key (a no-op when
the key is absent). -/
def credReject (secrets : List (CredKey × String)) (k : CredKey) :
    List (CredKey × String) :=
  secrets.filter fun e => ¬ e.1 = k

/-- `Config.get_github_token` (config.py lines 119-121). -/
def get_github_token (st : CState) (tenant_id : String) : Option String :=
  credFill st.secrets (credKeyOf st tenant_id)

/-- `Config.set_github_token` (config.py lines 123-125). -/
def set_github_token (st : CState) (tenant_id token : String) : CState :=
  { st with secrets := credApprove st.secrets (credKeyOf st tenant_id) token }

/-- `Config.delete_github_token` (config.py lines 127-129). -/
def delete_github_token (st : CState) (tenant_id : String) : CState :=
  { st with secrets := credReject st.secrets (credKeyOf st tenant_id) }

/-- The list update performed by `Config.add_tenant` (config.py lines
134-144): update name and role of the first record with the given id,
append a fresh record when none matches. -/
def add_tenant_list (ts : List TenantRec) (tenant_id name role : String) :
    List TenantRec :=
  match ts with
  | [] => [⟨tenant_id, name, role⟩]
  | t :: rest =>
    if t.tenant_id = tenant_id then ⟨t.tenant_id, name, role⟩ :: rest
    else t :: add_tenant_list rest tenant_id name role

/-- `Config.add_tenant`. -/
def add_tenant (st : CState) (tenant_id name role : String) : CState :=
  { st with tenants := add_tenant_list st.tenants tenant_id name role }

/-- `Config.remove_tenant` (config.py lines 146-150): filter the record
out of the tenant list, then erase the github token.  Note that no line
of the method touches `current_tenant`. -/
def remove_tenant (st : CState) (tenant_id : String) : CState :=
  delete_github_token
    { st with tenants := st.tenants.filter fun t => ¬ t.tenant_id = tenant_id }
    tenant_id

/-- First tenant record with the given id, as `show_config` and
`select_tenant` look records up. -/
def tenantLookup (ts : List TenantRec) (tenant_id : String) : Option TenantRec :=
  ts.find? fun t => t.tenant_id = tenant_id

/-- Python truthiness of an optional string (`if not tenant_id:` treats
both `None` and the empty string as missing). -/
def optTruthy : Option String → Option String
  | some s => if s = "" then none else some s
  | none => none

/-- Result of `get_client` (cli.py lines 19-35).  `usabilityError` is a
`click.ClickException`; `attributeError` records the name of a method
the code calls that `Config` does not define, so the call raises
`AttributeError` at that point. -/
inductive ClientResult where
  | usabilityError (msg : String)
  | attributeError (missing : String)
  | client (base_url : String) (token : String)
deriving DecidableEq

/-- Model of `get_client` (cli.py lines 19-35).  After the endpoint and
tenant checks, line 30 reads `config.get_token(tenant_id)` — `Config`
(config.py) defines `get_github_token` (line 119) but no method named
`get_token`, so the attribute access raises `AttributeError` before any
token is fetched; the `if not token` check on line 31 and the success
return on line 35 are unreachable. -/
def get_client (st : CState) (tenant : Option String) : ClientResult :=
  if st.api_endpoint = "" then
    .usabilityError "API endpoint not configured"
  else
    match tenant with
    | some _ => .attributeError "get_token"
    | none =>
      match optTruthy st.current_tenant with
      | none => .usabilityError "No tenant selected"
      | some _ => .attributeError "get_token"

/-- Errors a CLI command body can raise. -/
inductive CliErr where
  | usability (msg : String)
  | attrMissing (methodName : String)
deriving DecidableEq

/-- State after a `logout` invocation together with the error it raised,
if any. -/
structure LogoutResult where
  state : CState
  error : Option CliErr
deriving DecidableEq

/-- Model of `logout` (cli.py lines 112-123).  The tenant id is the
argument when truthy, else the current tenant; if neither is available a
usability error is raised.  Line 119 erases the github token; line 120
then reads `config.delete_token(tenant_id)` — `Config` defines
`delete_github_token` (config.py line 127) but no method named
`delete_token`, so the attribute access raises `AttributeError` there
and lines 121-122, which would clear `current_tenant`, never run. -/
def logout (st : CState) (tenant : Option String) : LogoutResult :=
  match optTruthy tenant with
  | some tid => ⟨delete_github_token st tid, some (.attrMissing "delete_token")⟩
  | none =>
    match optTruthy st.current_tenant with
    | some tid => ⟨delete_github_token st tid, some (.attrMissing "delete_token")⟩
    | none => ⟨st, some (.usability "No tenant specified and no current tenant selected")⟩

/-- The token payload returned by the provider on a successful poll, as
`login` reads it (cli.py lines 94-96): `token`, `github_user` and
`permission` are accessed; a `repo_names` field may be present in the
JSON but no line of `login` reads it. -/
structure TokenResponse where
  token : String
  github_user : String
  permission : String
  repo_names : Option (List String)
deriving DecidableEq

/-- Externally visible side effects of an operation, in order: a
server-side revocation request (`APIClient.revoke_token`), a credential
helper store, a credential helper erase. -/
inductive Effect where
  | revokeCall (token : String)
  | helperApprove (key : CredKey) (value : String)
  | helperReject (key : CredKey)
deriving DecidableEq

/-- Model of the success path of `login` (cli.py lines 94-100), after
`wait_for_github_auth` has returned `resp`: store the token under the
tenant credential key (one `approve` call), upsert the tenant record
with name = tenant id and the constant role `"member"`, and select the
tenant when none is currently selected.  Returns the effect trace and
the new state.  No revocation request and no deletion is performed, and
`resp.repo_names`, `resp.github_user` and `resp.permission` are only
printed, never stored. -/
def login_on_success (st : CState) (tenant_id : String) (resp : TokenResponse) :
    List Effect × CState :=
  let st1 := set_github_token st tenant_id resp.token
  let st2 := add_tenant st1 tenant_id tenant_id "member"
  let st3 :=
    match optTruthy st2.current_tenant with
    | none => { st2 with current_tenant := some tenant_id }
    | some _ => st2
  ([.helperApprove (credKeyOf st tenant_id) resp.token], st3)

/-- Modelled from the spec: the set of locally stored secrets the spec
says `login` leaves for the tenant, over the abstract Secret Key model
`(tenant_id, optional repo_name)` — one secret per listed repo scope
when the provider returned `repo_names`, one unscoped secret otherwise.
Used only to compare the spec against the code, which has no
repo-scoped keys. -/
def specLoginSecrets (tenant_id token : String) (repo_names : Option (List String)) :
    List ((String × Option String) × String) :=
  match repo_names with
  | some rs => rs.map fun r => ((tenant_id, some r), token)
  | none => [((tenant_id, none), token)]

/-- Abstraction of a stored credential entry to the abstract Secret Key
model of the spec: the username component of the key is the tenant id,
and the key carries no repo dimension. -/
def absSecret (e : CredKey × String) : (String × Option String) × String :=
  ((e.1.2.2, none), e.2)

/-! Helper lemmas. -/

@[simp]
theorem beq_jstr_jstr (a b : String) :
    (JVal.jstr a == JVal.jstr b) = (a == b) := rfl

@[simp]
theorem beq_pending_pending :
    ((JVal.jstr "authorization_pending") == JVal.jstr "authorization_pending") = true := rfl

@[simp]
theorem beq_slow_pending :
    ((JVal.jstr "slow_down") == JVal.jstr "authorization_pending") = false := rfl

@[simp]
theorem beq_slow_slow :
    ((JVal.jstr "slow_down") == JVal.jstr "slow_down") = true := rfl

/-- Claim C6: in the poll loop started with interval `I`, three
provider answers that are 400-class with `details.error =
"authorization_pending"` followed by a success cause exactly three
sleeps of duration `I` each, and the loop returns the success payload;
the pending answers are never surfaced as an error. -/
theorem pending_three_then_success (I : Nat) (e1 e2 e3 : APIErr) (p : JDict)
    (h1s : e1.status_code = 400) (h1e : detail_error e1 = .jstr "authorization_pending")
    (h2s : e2.status_code = 400) (h2e : detail_error e2 = .jstr "authorization_pending")
    (h3s : e3.status_code = 400) (h3e : detail_error e3 = .jstr "authorization_pending") :
    wait_for_github_auth I [.failure e1, .failure e2, .failure e3, .success p]
      = ([I, I, I], .authorized p) := by
  simp [wait_for_github_auth, h1s, h1e, h2s, h2e, h3s, h3e]

/-- Witness for `pending_three_then_success` at interval 5 and a
concrete scripted provider. -/
theorem pending_three_then_success_witness :
    wait_for_github_auth 5
      [.failure ⟨400, .jstr "pending", some [("error", .jstr "authorization_pending")]⟩,
       .failure ⟨400, .jstr "pending", some [("error", .jstr "authorization_pending")]⟩,
       .failure ⟨400, .jstr "pending", some [("error", .jstr "authorization_pending")]⟩,
       .success [("token", .jstr "tok_1")]]
      = ([5, 5, 5], .authorized [("token", .jstr "tok_1")]) :=
  pending_three_then_success 5 _ _ _ _ rfl rfl rfl rfl rfl rfl

/-- Claim C5, counterexample: with initial interval 5, a script of two
`slow_down` answers, one `authorization_pending` answer and then a
success leads the code to sleep 10, 15, 15 seconds — the code adds 5 to
the interval *before* sleeping on `slow_down` — and not 5, 10, 10 as
the claim states. -/
theorem slow_down_sleeps_counterexample :
    wait_for_github_auth 5
      [.failure ⟨400, .jstr "slow", some [("error", .jstr "slow_down")]⟩,
       .failure ⟨400, .jstr "slow", some [("error", .jstr "slow_down")]⟩,
       .failure ⟨400, .jstr "pending", some [("error", .jstr "authorization_pending")]⟩,
       .success [("token", .jstr "tok_1")]]
      = ([10, 15, 15], .authorized [("token", .jstr "tok_1")])
    ∧ ([10, 15, 15] : List Nat) ≠ [5, 10, 10] :=
  ⟨rfl, by decide⟩

/-- Claim C5, amended: in the poll loop started with interval `I`, two
`slow_down` answers, one `authorization_pending` answer and then a
success cause three sleeps of durations `I + 5`, `I + 10`, `I + 10`
(each `slow_down` increments the interval by 5 before sleeping, and the
increments persist across the later pending response), and the loop
returns the success payload. -/
theorem slow_down_increment_persists (I : Nat) (e1 e2 e3 : APIErr) (p : JDict)
    (h1s : e1.status_code = 400) (h1e : detail_error e1 = .jstr "slow_down")
    (h2s : e2.status_code = 400) (h2e : detail_error e2 = .jstr "slow_down")
    (h3s : e3.status_code = 400) (h3e : detail_error e3 = .jstr "authorization_pending") :
    wait_for_github_auth I [.failure e1, .failure e2, .failure e3, .success p]
      = ([I + 5, I + 10, I + 10], .authorized p) := by
  simp [wait_for_github_auth, h1s, h1e, h2s, h2e, h3s, h3e]

/-- Witness for `slow_down_increment_persists` at interval 7. -/
theorem slow_down_increment_persists_witness :
    wait_for_github_auth 7
      [.failure ⟨400, .jstr "slow", some [("error", .jstr "slow_down")]⟩,
       .failure ⟨400, .jstr "slow", some [("error", .jstr "slow_down")]⟩,
       .failure ⟨400, .jstr "pending", some [("error", .jstr "authorization_pending")]⟩,
       .success [("token", .jstr "tok_9")]]
      = ([12, 17, 17], .authorized [("token", .jstr "tok_9")]) :=
  slow_down_increment_persists 7 _ _ _ _ rfl rfl rfl rfl rfl rfl

/-- Claim C8: for every failed response (status at least 400 and not
204) whose body does not parse as JSON, the normalizer produces exactly
one error whose message is the raw response text; the layered parse is
a total function and never aborts on the malformed body. -/
theorem malformed_body_raw_text (status : Nat) (raw : String)
    (h4 : 400 ≤ status) (h204 : status ≠ 204) :
    handle_response status none raw = .failure ⟨status, .jstr raw, none⟩ := by
  simp [handle_response, h204, h4, error_message]

/-- Witness for `malformed_body_raw_text` at status 500. -/
theorem malformed_body_raw_text_witness :
    handle_response 500 none "<html>Internal Server Error</html>"
      = .failure ⟨500, .jstr "<html>Internal Server Error</html>", none⟩ :=
  malformed_body_raw_text 500 "<html>Internal Server Error</html>" (by decide) (by decide)

/-- Claim C7, counterexample: a failed body carrying an `error` key (no
`error_description`) and a non-empty `details` array produces the error
value alone — the `elif "error" in error_data` branch of `_request`
returns before the details-appending code, which only runs when the
body has no `error` key — and not the claimed concatenation. -/
theorem details_append_counterexample :
    error_message
        (some [("error", .jstr "bad_request"), ("details", .jarr [.jstr "field x"])])
        "raw body"
      = .jstr "bad_request"
    ∧ JVal.jstr "bad_request" ≠ .jstr "bad_request: field x" := by
  refine ⟨rfl, fun h => ?_⟩
  injection h with hs
  exact absurd hs (by decide)

/-- Claim C7, amended: the detail items are appended only when the body
has no `error` key: for a body with a `message` key, no `error` key and
a non-empty `details` array whose filtered comma-join is non-empty, the
normalized message is the `message` value followed by a colon, a space
and the comma-joined stringification of the non-empty detail items. -/
theorem details_appended_without_error_key
    (d : JDict) (m : String) (xs : List JVal) (raw : String)
    (hne : dictGet d "error" = none)
    (hm : dictGet d "message" = some (.jstr m))
    (hd : dictGet d "details" = some (.jarr xs))
    (hx : xs.isEmpty = false)
    (hj : joinDetails xs ≠ "") :
    error_message (some d) raw = .jstr (m ++ ": " ++ joinDetails xs) := by
  simp [error_message, dictHas, hne, hm, hd, pyGet, pyTruthy, iterItems, hx, hj, pyStr]

/-- Witness for `details_appended_without_error_key` on a concrete
management-API error body. -/
theorem details_appended_without_error_key_witness :
    error_message
        (some [("message", .jstr "validation failed"),
               ("details", .jarr [.jstr "name too long", .jstr "bad plan"])])
        "raw body"
      = .jstr ("validation failed" ++ ": " ++
          joinDetails [.jstr "name too long", .jstr "bad plan"]) :=
  details_appended_without_error_key _ _ _ _ rfl rfl rfl rfl (by decide)

/-- Looking a tenant id up after `add_tenant_list` finds the upserted
record: name and role overwritten on the first existing record with the
id, or a fresh record appended. -/
theorem tenantLookup_add_tenant_list (ts : List TenantRec) (tid name role : String) :
    tenantLookup (add_tenant_list ts tid name role) tid = some ⟨tid, name, role⟩ := by
  induction ts with
  | nil => simp [add_tenant_list, tenantLookup, List.find?]
  | cons t rest ih =>
    by_cases h : t.tenant_id = tid
    · simp [add_tenant_list, tenantLookup, List.find?, h]
    · simpa [add_tenant_list, tenantLookup, List.find?, h] using ih

/-- Claim C1, counterexample: running the success path of `login` for
tenant `acme` from an empty state with a provider payload carrying
`repo_names = ["r1", "r2"]` stores exactly one secret, under the
tenant-derived credential key — identical to what a payload without any
`repo_names` produces — whereas the claim requires secrets for
`(acme, r1)` and `(acme, r2)`: under the abstraction of stored entries
to the spec Secret Key model, `((acme, r1), tok_1)` is not among the
stored secrets, though the spec-side expectation lists it. -/
theorem login_repo_scopes_counterexample :
    (login_on_success ⟨"https://api.example.com", "", none, [], []⟩ "acme"
        ⟨"tok_1", "alice", "admin", some ["r1", "r2"]⟩).2.secrets
      = [(("candy-lfs.local", "acme", "acme"), "tok_1")]
    ∧ login_on_success ⟨"https://api.example.com", "", none, [], []⟩ "acme"
        ⟨"tok_1", "alice", "admin", some ["r1", "r2"]⟩
      = login_on_success ⟨"https://api.example.com", "", none, [], []⟩ "acme"
        ⟨"tok_1", "alice", "admin", none⟩
    ∧ specLoginSecrets "acme" "tok_1" (some ["r1", "r2"])
      = [(("acme", some "r1"), "tok_1"), (("acme", some "r2"), "tok_1")]
    ∧ ¬ ((("acme", some "r1"), "tok_1")
        ∈ ((login_on_success ⟨"https://api.example.com", "", none, [], []⟩ "acme"
            ⟨"tok_1", "alice", "admin", some ["r1", "r2"]⟩).2.secrets.map absSecret)) :=
  ⟨rfl, rfl, rfl, by decide⟩

/-- Claim C1, amended: the success path of `login` ignores `repo_names`
entirely: its only secret-store effect is a single credential-helper
store of the new token under the tenant-derived key (no server-side
revocation call and no deletion), the resulting secrets are exactly the
previous secrets with that one key overwritten or appended, and the
result is identical whether or not the provider returned a repo-scope
list. -/
theorem login_stores_once_ignores_repo_names
    (st : CState) (tid : String) (resp : TokenResponse) :
    (login_on_success st tid resp).1
        = [.helperApprove (credKeyOf st tid) resp.token]
    ∧ (login_on_success st tid resp).2.secrets
        = credApprove st.secrets (credKeyOf st tid) resp.token
    ∧ login_on_success st tid resp
        = login_on_success st tid ⟨resp.token, resp.github_user, resp.permission, none⟩ := by
  refine ⟨rfl, ?_, rfl⟩
  unfold login_on_success
  dsimp only
  split <;> rfl

/-- Claim C2, code bug: with an endpoint configured, an explicit tenant
argument and a token stored for that tenant — the situation in which
the claim requires an authenticated client — `get_client` raises
`AttributeError`: cli.py line 30 calls `config.get_token`, a method
`Config` does not define (the defined accessor is `get_github_token`,
config.py line 119). -/
theorem get_client_attribute_error :
    get_client
        ⟨"https://api.example.com", "", some "acme", [⟨"acme", "acme", "member"⟩],
          [(("candy-lfs.local", "acme", "acme"), "tok_1")]⟩
        (some "acme")
      = .attributeError "get_token"
    ∧ get_github_token
        ⟨"https://api.example.com", "", some "acme", [⟨"acme", "acme", "member"⟩],
          [(("candy-lfs.local", "acme", "acme"), "tok_1")]⟩
        "acme"
      = some "tok_1" :=
  ⟨rfl, rfl⟩

/-- Claim C3, counterexample: removing the tenant record that
`current_tenant` references leaves the pointer untouched and dangling:
from a state whose only tenant is `acme` with `current_tenant = acme`,
`remove_tenant "acme"` empties the tenant list but `current_tenant` is
still `acme`, not cleared as the claim states. -/
theorem remove_tenant_dangling_counterexample :
    (remove_tenant ⟨"", "", some "acme", [⟨"acme", "acme", "member"⟩], []⟩
        "acme").current_tenant = some "acme"
    ∧ (remove_tenant ⟨"", "", some "acme", [⟨"acme", "acme", "member"⟩], []⟩
        "acme").tenants = []
    ∧ (some "acme" : Option String) ≠ none :=
  ⟨rfl, rfl, by decide⟩

/-- Claim C3, amended: `remove_tenant` never modifies `current_tenant`
— removing the currently selected tenant leaves the pointer dangling,
and removing a different tenant (the part of the claim that holds)
leaves it unchanged as well. -/
theorem remove_tenant_preserves_current (st : CState) (tid : String) :
    (remove_tenant st tid).current_tenant = st.current_tenant := rfl

/-- Claim C4, code bug: a single `logout` for the selected tenant
already raises `AttributeError` — cli.py line 120 calls
`config.delete_token`, a method `Config` does not define (the defined
eraser is `delete_github_token`, config.py line 127) — and because
lines 121-122 never run, `current_tenant` still equals the logged-out
tenant afterwards, contradicting both parts of the claim. -/
theorem logout_attribute_error :
    (logout ⟨"https://api.example.com", "", some "acme", [⟨"acme", "acme", "member"⟩], []⟩
        (some "acme")).error = some (.attrMissing "delete_token")
    ∧ (logout ⟨"https://api.example.com", "", some "acme", [⟨"acme", "acme", "member"⟩], []⟩
        (some "acme")).state.current_tenant = some "acme" :=
  ⟨rfl, rfl⟩

/-- Claim C9: the success path of `login` upserts the tenant record
with name equal to the tenant id and the constant role `"member"`,
overwriting any previously stored name and role for that id, and the
provider-reported user and permission are never persisted: the result
does not depend on them. -/
theorem login_upserts_member_record (st : CState) (tid : String) (resp : TokenResponse) :
    tenantLookup (login_on_success st tid resp).2.tenants tid = some ⟨tid, tid, "member"⟩
    ∧ ∀ u p : String,
        login_on_success st tid ⟨resp.token, u, p, resp.repo_names⟩
          = login_on_success st tid resp := by
  refine ⟨?_, fun u p => rfl⟩
  have hts : (login_on_success st tid resp).2.tenants
      = add_tenant_list st.tenants tid tid "member" := by
    unfold login_on_success
    dsimp only
    split <;> rfl
  rw [hts]
  exact tenantLookup_add_tenant_list st.tenants tid tid "member"

/-- Claim C10: `logout` never removes or edits a tenant record: for
every state and optional tenant argument, the tenant list after the
call — whether it ends in the usability error, or in the
`AttributeError` the current code always raises after erasing the
secret — equals the tenant list before it. -/
theorem logout_preserves_tenant_list (st : CState) (tenant : Option String) :
    (logout st tenant).state.tenants = st.tenants := by
  unfold logout
  split
  · rfl
  · split
    · rfl
    · rfl

end CandyLfs
